import Mathlib

/- Verification development for the voice session proxy of the Parts
   repository. The definitions below are shallow embeddings of:
   FunctionToolsService (src/services/function-tools.service.ts),
   OpenAIRealtimeService (src/services/openai-realtime.service.ts),
   VoiceWebSocketHandler (the websocket handler source) and
   verifyWebSocketToken (the websocket auth middleware). External
   collaborators (the ws library, JSON.parse, jwt.verify, prisma, the tool
   handlers themselves) are modelled as explicit parameters or abstract
   outcome values; the control flow around them is translated from the
   source. -/

/-- Result type of a tool handler, from the FunctionCallResult interface in
function-tools.service.ts: a success flag plus an optional data payload and
an optional error string. The data payload is kept opaque as a string. -/
structure FunctionCallResult where
  success : Bool
  data : Option String := none
  error : Option String := none
  deriving DecidableEq, Repr

/-- The function names recognized by the switch in
FunctionToolsService.executeFunction (lines 174 to 207). -/
def knownFunctionNames : List String :=
  ["search_manual_pdfs", "email_manual", "search_web", "get_weather",
   "get_news", "get_stock_info", "get_current_time"]

/-- Behaviour of the awaited call to one of the private tool handlers of
FunctionToolsService. The handlers perform external network calls, so from
the point of view of executeFunction an invocation either resolves with a
FunctionCallResult, rejects with an error message, or never settles. -/
inductive HandlerOutcome where
  | returns (r : FunctionCallResult)
  | throws (msg : String)
  | diverges
  deriving DecidableEq, Repr

/-- Outcome of one call to executeFunction as observed by its caller: the
promise resolves with a result, rejects with an escaping exception, or
never settles. -/
inductive DispatchOutcome where
  | result (r : FunctionCallResult)
  | raised (msg : String)
  | pending
  deriving DecidableEq, Repr

/-- True exactly when the dispatch resolved with a result. -/
def DispatchOutcome.isResult : DispatchOutcome → Bool
  | .result _ => true
  | _ => false

/-- True exactly when the dispatch rejected with an escaping exception. -/
def DispatchOutcome.isRaised : DispatchOutcome → Bool
  | .raised _ => true
  | _ => false

/-- Embedding of FunctionToolsService.executeFunction (lines 167 to 227).
A known function name forwards to its handler inside a try block: a
resolved handler result is returned as is, a rejection is caught and
converted to a structured error result carrying the thrown message, and a
handler that never settles leaves the awaited dispatch pending, since the
body contains no timer racing the await. An unknown name returns the
structured error with message "Unknown function: " followed by the name,
without invoking any handler. -/
def executeFunction (functionName : String) (handler : HandlerOutcome) : DispatchOutcome :=
  if functionName ∈ knownFunctionNames then
    match handler with
    | .returns r => .result r
    | .throws msg => .result { success := false, error := some msg }
    | .diverges => .pending
  else
    .result { success := false, error := some ("Unknown function: " ++ functionName) }

/-- Output field of the function_call_output item built by
OpenAIRealtimeService.handleFunctionCall: the stringified result.data when
present, otherwise the object with the single field error set to
result.error. -/
inductive ToolOutput where
  | dataPayload (d : String)
  | errorPayload (e : Option String)
  deriving DecidableEq, Repr

/-- Embedding of the expression result.data or-else the error object, from
handleFunctionCall in openai-realtime.service.ts. -/
def outputOf (r : FunctionCallResult) : ToolOutput :=
  match r.data with
  | some d => .dataPayload d
  | none => .errorPayload r.error

/-- Messages the service writes to the upstream socket. Covers the sends of
handleFunctionCall, sendAudio, commitAudio, clearAudio, sendText,
createResponse and cancelResponse in openai-realtime.service.ts. -/
inductive UpstreamSend where
  | functionCallOutput (callId : String) (output : ToolOutput)
  | responseCreate
  | conversationItemCreateText (text : String)
  | inputAudioAppend (audioB64 : String)
  | inputAudioCommit
  | inputAudioClear
  | responseCancel
  | sessionUpdate
  deriving DecidableEq, Repr

/-- The fields of a response.function_call_arguments.done message that
handleFunctionCall reads: call_id, name and the raw arguments string. -/
structure UpstreamToolCallMsg where
  call_id : String
  name : String
  arguments : Option String
  deriving DecidableEq, Repr

/-- True when an upstream send is the function_call_output result event for
a tool call. -/
def isResultEvent : UpstreamSend → Bool
  | .functionCallOutput _ _ => true
  | _ => false

/-- Number of tool call result events in a list of upstream sends. -/
def countResultEvents (sends : List UpstreamSend) : Nat :=
  (sends.filter isResultEvent).length

/-- Embedding of OpenAIRealtimeService.handleFunctionCall (lines 164 to
221). The parameter jsonParses models success of the external JSON.parse on
the arguments string (the source parses message.arguments or-else the empty
object literal); wsOpen models ws.readyState being OPEN at the send. The
value is the ordered list of messages written to the upstream socket: when
the arguments parse and the dispatch resolves and the socket is open, the
function_call_output item followed by response.create; when JSON.parse
throws, the surrounding catch only logs, so nothing is sent; when the
socket is not open, the send block is skipped; when the dispatch never
settles, the code after the await never runs. -/
def handleFunctionCall (jsonParses : String → Bool) (wsOpen : Bool)
    (msg : UpstreamToolCallMsg) (handler : HandlerOutcome) : List UpstreamSend :=
  if jsonParses (msg.arguments.getD ("\x7b\x7d")) then
    match executeFunction msg.name handler with
    | .result r =>
        if wsOpen then
          [UpstreamSend.functionCallOutput msg.call_id (outputOf r),
           UpstreamSend.responseCreate]
        else []
    | .raised _ => []
    | .pending => []
  else []

/-- Model of the external JSON.parse success predicate, used only to
instantiate concrete scenarios: the empty object literal parses, while a
lone opening brace is rejected, matching the behaviour of JSON.parse on
these two inputs. -/
def jsonParsesModel (s : String) : Bool :=
  s == "\x7b\x7d"

/-- Status values of the RealtimeSession interface in
openai-realtime.service.ts, line 33. -/
inductive RTStatus where
  | connecting
  | connected
  | disconnected
  | error
  deriving DecidableEq, Repr

/-- The occurrences that write the status field of the current
RealtimeSession object: the ws open callback, the ws error callback, the ws
close callback (which runs handleDisconnect) and an explicit disconnect
call from the handler layer. -/
inductive RTEvent where
  | wsOpen
  | wsError
  | wsClose
  | disconnectCall
  deriving DecidableEq, Repr

/-- Embedding of the status writes of OpenAIRealtimeService: each callback
assigns a fixed status value regardless of the current one. The open
callback sets connected, the error callback sets error, handleDisconnect
(run from the close callback) sets disconnected, and disconnect() sets
disconnected. connect() initializes the session object with status
connecting. -/
def statusStep : RTStatus → RTEvent → RTStatus :=
  fun _ e =>
    match e with
    | .wsOpen => .connected
    | .wsError => .error
    | .wsClose => .disconnected
    | .disconnectCall => .disconnected

/-- Status after a sequence of callback events, starting from a given
status. -/
def statusAfter (s : RTStatus) (events : List RTEvent) : RTStatus :=
  events.foldl statusStep s

/-- Full status history along a sequence of callback events, including the
starting status. -/
def statusHistory : RTStatus → List RTEvent → List RTStatus
  | s, [] => [s]
  | s, e :: rest => s :: statusHistory (statusStep s e) rest

/-- Usage object of an upstream response.done message, as read by
handleMessage: input_tokens, output_tokens and the two audio token detail
fields, each possibly absent. -/
structure UsageReport where
  input_tokens : Option Nat
  output_tokens : Option Nat
  input_audio_tokens : Option Nat
  output_audio_tokens : Option Nat
  deriving DecidableEq, Repr

/-- The token counters held on the in-memory RealtimeSession object
(lines 31 and 32 of openai-realtime.service.ts). The interface has no audio
token fields. -/
structure SessionCounters where
  inputTokens : Nat
  outputTokens : Nat
  deriving DecidableEq, Repr

/-- Embedding of the response.done branch of handleMessage (lines 259 to
277): when a usage object is present, inputTokens and outputTokens are
incremented by the reported values (absent fields count as zero); the audio
token details are read into local variables for logging only and are not
stored anywhere. Without a usage object the counters are untouched. -/
def applyResponseDone (s : SessionCounters) (usage : Option UsageReport) : SessionCounters :=
  match usage with
  | none => s
  | some u =>
      { inputTokens := s.inputTokens + u.input_tokens.getD 0,
        outputTokens := s.outputTokens + u.output_tokens.getD 0 }

/-- The persisted voice session row, with the four token columns written by
createVoiceSessionRecord. -/
structure VoiceSessionRecord where
  inputTokens : Nat
  outputTokens : Nat
  inputAudioTokens : Nat
  outputAudioTokens : Nat
  deriving DecidableEq, Repr

/-- Row created by createVoiceSessionRecord: all four token columns are
zero. -/
def initialVoiceSessionRecord : VoiceSessionRecord :=
  { inputTokens := 0, outputTokens := 0, inputAudioTokens := 0, outputAudioTokens := 0 }

/-- Embedding of updateVoiceSessionMetrics: the update writes only the
inputTokens and outputTokens columns of the row. -/
def updateVoiceSessionMetrics (r : VoiceSessionRecord) (i o : Nat) : VoiceSessionRecord :=
  { r with inputTokens := i, outputTokens := o }

/-- The response.done listener installed by setupOpenAIListeners: the
in-memory counters have already been accumulated by handleMessage, and the
listener then persists the in-memory totals through
updateVoiceSessionMetrics. -/
def onResponseDone (st : SessionCounters × VoiceSessionRecord) (usage : Option UsageReport) :
    SessionCounters × VoiceSessionRecord :=
  let s := applyResponseDone st.1 usage
  (s, updateVoiceSessionMetrics st.2 s.inputTokens s.outputTokens)

/-- State of the in-memory counters and the persisted row after a sequence
of response.done events, starting from a fresh session. -/
def runResponseDone (usages : List (Option UsageReport)) : SessionCounters × VoiceSessionRecord :=
  usages.foldl onResponseDone (⟨0, 0⟩, initialVoiceSessionRecord)

/-- Idle timeout constant SESSION_TIMEOUT_MS of VoiceWebSocketHandler:
10 minutes in milliseconds. -/
def SESSION_TIMEOUT_MS : Nat := 600000

/-- Activity visible to a live session: a client websocket message (the
message listener of setupClientListeners), an upstream event forwarded by
one of the setupOpenAIListeners callbacks, or a transport-level pong from
the client socket. -/
inductive ActivityEvent where
  | clientMessage
  | upstreamEvent
  | transportPong
  deriving DecidableEq, Repr

/-- Virtual-clock trace of the per-session idle timer of
VoiceWebSocketHandler. The message listener calls resetSessionTimeout on
every client message, rescheduling the cleanup to the message time plus
SESSION_TIMEOUT_MS; the upstream event callbacks never touch the timer; the
pong listener only updates lastActivity. Given the time-ordered activity of
the session and the currently armed deadline, the value is the virtual time
at which the timeout callback invokes cleanupSession: the pending deadline
fires as soon as it precedes the remaining activity. -/
def idleFireTime : List (Nat × ActivityEvent) → Nat → Nat
  | [], deadline => deadline
  | (t, e) :: rest, deadline =>
      if deadline ≤ t then deadline
      else
        match e with
        | .clientMessage => idleFireTime rest (t + SESSION_TIMEOUT_MS)
        | .upstreamEvent => idleFireTime rest deadline
        | .transportPong => idleFireTime rest deadline

/-- Progress of one invocation of VoiceWebSocketHandler.cleanupSession. The
body runs synchronously from entry up to the await on finalizeVoiceSession;
the map delete and the timeout clearing run only after that await
resolves. -/
inductive CleanupPhase where
  | start
  | awaitingFinalize
  | done
  deriving DecidableEq, Repr

/-- The handler state touched by cleanupSession for one session: presence
of the session map entry, presence of the timeout map entry, and counts of
finalizeVoiceSession and openaiService.disconnect invocations. -/
structure HandlerState where
  sessionPresent : Bool
  timeoutPresent : Bool
  finalizeCalls : Nat
  upstreamDisconnectCalls : Nat
  deriving DecidableEq, Repr

/-- Handler state at the moment the first termination trigger fires for a
live session. -/
def initialHandlerState : HandlerState :=
  { sessionPresent := true, timeoutPresent := true,
    finalizeCalls := 0, upstreamDisconnectCalls := 0 }

/-- One scheduling step of a cleanupSession invocation, embedded from lines
627 to 646 of the handler source. From the start, the body looks the
session up: when present it calls openaiService.disconnect, closes the
client socket, and enters finalizeVoiceSession (counted here), suspending
at the await; when absent it skips straight to clearing the timeout entry
and finishes. When the awaited finalize resolves, the body deletes the
session map entry and then clears the timeout entry. -/
def cleanupStep (s : HandlerState) (p : CleanupPhase) : HandlerState × CleanupPhase :=
  match p with
  | .start =>
      if s.sessionPresent then
        ({ s with upstreamDisconnectCalls := s.upstreamDisconnectCalls + 1,
                  finalizeCalls := s.finalizeCalls + 1 },
         .awaitingFinalize)
      else
        ({ s with timeoutPresent := false }, .done)
  | .awaitingFinalize =>
      ({ s with sessionPresent := false, timeoutPresent := false }, .done)
  | .done => (s, .done)

/-- Two concurrent cleanupSession invocations for the same session (for
example, the idle timer callback and the upstream disconnected callback),
each with its own phase, over the shared handler state. -/
structure CleanupRun where
  state : HandlerState
  task0 : CleanupPhase
  task1 : CleanupPhase
  deriving DecidableEq, Repr

/-- Run one step of the chosen invocation (false picks task0, true picks
task1). -/
def runStep (r : CleanupRun) (pick : Bool) : CleanupRun :=
  if pick then
    let sp := cleanupStep r.state r.task1
    { r with state := sp.1, task1 := sp.2 }
  else
    let sp := cleanupStep r.state r.task0
    { r with state := sp.1, task0 := sp.2 }

/-- Run a whole interleaving schedule of the two invocations. -/
def runSchedule : CleanupRun → List Bool → CleanupRun
  | r, [] => r
  | r, pick :: rest => runSchedule (runStep r pick) rest

/-- Both invocations pending on a live session. -/
def initialCleanupRun : CleanupRun :=
  { state := initialHandlerState, task0 := .start, task1 := .start }

/-- One complete, uninterleaved cleanupSession invocation: run the start
phase and, when it suspended at the finalize await, the resumption. -/
def cleanupOnce (s : HandlerState) : HandlerState :=
  let sp := cleanupStep s .start
  match sp.2 with
  | .awaitingFinalize => (cleanupStep sp.1 .awaitingFinalize).1
  | _ => sp.1

/-- Sequential composition of complete cleanupSession invocations. -/
def cleanupTimes : Nat → HandlerState → HandlerState
  | 0, s => s
  | n + 1, s => cleanupTimes n (cleanupOnce s)

/-- Claims decoded by jwt.verify that verifyWebSocketToken inspects: the
userId field and the id field. -/
structure JwtClaims where
  userId : Option String
  id : Option String
  deriving DecidableEq, Repr

/-- Credential material of an inbound upgrade request, as read by
verifyWebSocketToken: the token query parameter, the Authorization header,
the apiKey query parameter and the x-api-key header. -/
structure UpgradeRequest where
  queryToken : Option String
  authorizationHeader : Option String
  queryApiKey : Option String
  headerApiKey : Option String
  deriving DecidableEq, Repr

/-- Embedding of verifyWebSocketToken from the websocket auth middleware
(lines 83 to 127). The token is the token query parameter, or else the
Authorization header stripped of its Bearer prefix. With no token but an
api key equal to the configured master key, the fixed identity
api-key-user is returned; a wrong api key falls through. With no token the
verification fails. Otherwise jwt.verify runs (modelled by the jwtVerify
parameter, none meaning it threw); decoded claims lacking both userId and
id fail, else userId or-else id is the identity. The surrounding try
returns none on any throw. -/
def verifyWebSocketToken (jwtVerify : String → Option JwtClaims) (masterKey : String)
    (req : UpgradeRequest) : Option String :=
  let token : Option String :=
    match req.queryToken with
    | some t => some t
    | none =>
        match req.authorizationHeader with
        | some h => if String.isPrefixOf ("Bearer ") h then some (h.drop 7) else none
        | none => none
  let apiKey : Option String :=
    match req.queryApiKey with
    | some k => some k
    | none => req.headerApiKey
  match token with
  | none =>
      match apiKey with
      | some k => if k == masterKey then some ("api-key-user") else none
      | none => none
  | some t =>
      match jwtVerify t with
      | none => none
      | some claims =>
          match claims.userId with
          | some u => some u
          | none =>
              match claims.id with
              | some i => some i
              | none => none

/-- Response written on the raw socket by handleUpgrade, or the completed
upgrade. -/
inductive UpgradeResponse where
  | unauthorizedResponse
  | upgraded (sessionId : String)
  deriving DecidableEq, Repr

/-- Observable allocations of one upgrade attempt: the response, the
resulting session map contents, the number of upstream connection attempts
and the number of database session records created. -/
structure UpgradeEffects where
  response : UpgradeResponse
  registeredSessions : List String
  upstreamConnectAttempts : Nat
  sessionRecordsCreated : Nat
  deriving DecidableEq, Repr

/-- Embedding of VoiceWebSocketHandler.handleUpgrade (lines 648 to 666)
composed with the connection handler of setupWebSocketServer. A failed
verification writes the 401 response and destroys the socket before
wss.handleUpgrade runs, so the connection event never fires: the session
map is untouched, no session record is created and no upstream connection
is attempted. A successful verification completes the upgrade; the
connection handler then inserts the new session into the map, creates the
database record and attempts the upstream connect. -/
def handleUpgrade (jwtVerify : String → Option JwtClaims) (masterKey : String)
    (sessions : List String) (req : UpgradeRequest) (newSessionId : String) : UpgradeEffects :=
  match verifyWebSocketToken jwtVerify masterKey req with
  | none =>
      { response := .unauthorizedResponse, registeredSessions := sessions,
        upstreamConnectAttempts := 0, sessionRecordsCreated := 0 }
  | some _userId =>
      { response := .upgraded newSessionId,
        registeredSessions := newSessionId :: sessions,
        upstreamConnectAttempts := 1, sessionRecordsCreated := 1 }

/-- Parsed client wire messages, by the type discriminator of the switch in
setupClientListeners. -/
inductive ClientMessage where
  | inputAudioAppend (audio : Option String)
  | inputAudioCommit
  | inputAudioClear
  | conversationItemCreate (text : Option String)
  | responseCreate
  | responseCancel
  | conversationItemTruncate
  | ping
  | unknownType (t : String)
  deriving DecidableEq, Repr

/-- Messages the handler writes back to the client socket while processing
one client message. -/
inductive ClientSend where
  | pong
  | errorEvent (msg : String)
  deriving DecidableEq, Repr

/-- What processing one client frame sent to each side. -/
structure MessageEffects where
  toClient : List ClientSend
  toUpstream : List UpstreamSend
  deriving DecidableEq, Repr

/-- Embedding of OpenAIRealtimeService.sendAudio: with the upstream socket
not open it throws, else it sends one input_audio_buffer.append message
carrying the base64 audio. -/
def sendAudio (wsOpen : Bool) (audioB64 : String) : Except String (List UpstreamSend) :=
  if wsOpen then .ok [UpstreamSend.inputAudioAppend audioB64]
  else .error ("WebSocket is not connected")

/-- Embedding of OpenAIRealtimeService.commitAudio. -/
def commitAudio (wsOpen : Bool) : Except String (List UpstreamSend) :=
  if wsOpen then .ok [UpstreamSend.inputAudioCommit]
  else .error ("WebSocket is not connected")

/-- Embedding of OpenAIRealtimeService.clearAudio. -/
def clearAudio (wsOpen : Bool) : Except String (List UpstreamSend) :=
  if wsOpen then .ok [UpstreamSend.inputAudioClear]
  else .error ("WebSocket is not connected")

/-- Embedding of OpenAIRealtimeService.sendText (lines 362 to 383): with
the socket open it sends the conversation.item.create message carrying the
user text and then calls createResponse, which sends response.create on the
same still-open socket; with the socket not open it throws. -/
def sendText (wsOpen : Bool) (text : String) : Except String (List UpstreamSend) :=
  if wsOpen then
    .ok [UpstreamSend.conversationItemCreateText text, UpstreamSend.responseCreate]
  else .error ("WebSocket is not connected")

/-- Embedding of OpenAIRealtimeService.createResponse. -/
def createResponse (wsOpen : Bool) : Except String (List UpstreamSend) :=
  if wsOpen then .ok [UpstreamSend.responseCreate]
  else .error ("WebSocket is not connected")

/-- Embedding of OpenAIRealtimeService.cancelResponse. -/
def cancelResponse (wsOpen : Bool) : Except String (List UpstreamSend) :=
  if wsOpen then .ok [UpstreamSend.responseCancel]
  else .error ("WebSocket is not connected")

/-- Embedding of the message listener installed by setupClientListeners
(lines 534 to 596 of the handler source). A throw from a send method is
caught by the listener, which answers the client with a single error event
and forwards nothing. An append without an audio field and an item create
without text fall through their guards and send nothing. A truncate is
answered with a fixed error event; a ping with a pong; unknown types are
logged and dropped. -/
def dispatchClientMessage (upstreamOpen : Bool) (msg : ClientMessage) : MessageEffects :=
  match msg with
  | .inputAudioAppend audio =>
      match audio with
      | none => ⟨[], []⟩
      | some a =>
          match sendAudio upstreamOpen a with
          | .ok sends => ⟨[], sends⟩
          | .error _ => ⟨[ClientSend.errorEvent ("Failed to process message")], []⟩
  | .inputAudioCommit =>
      match commitAudio upstreamOpen with
      | .ok sends => ⟨[], sends⟩
      | .error _ => ⟨[ClientSend.errorEvent ("Failed to process message")], []⟩
  | .inputAudioClear =>
      match clearAudio upstreamOpen with
      | .ok sends => ⟨[], sends⟩
      | .error _ => ⟨[ClientSend.errorEvent ("Failed to process message")], []⟩
  | .conversationItemCreate text =>
      match text with
      | none => ⟨[], []⟩
      | some t =>
          match sendText upstreamOpen t with
          | .ok sends => ⟨[], sends⟩
          | .error _ => ⟨[ClientSend.errorEvent ("Failed to process message")], []⟩
  | .responseCreate =>
      match createResponse upstreamOpen with
      | .ok sends => ⟨[], sends⟩
      | .error _ => ⟨[ClientSend.errorEvent ("Failed to process message")], []⟩
  | .responseCancel =>
      match cancelResponse upstreamOpen with
      | .ok sends => ⟨[], sends⟩
      | .error _ => ⟨[ClientSend.errorEvent ("Failed to process message")], []⟩
  | .conversationItemTruncate =>
      ⟨[ClientSend.errorEvent ("Truncate not yet implemented")], []⟩
  | .ping => ⟨[ClientSend.pong], []⟩
  | .unknownType _ => ⟨[], []⟩

/-- Whether setupClientListeners has run for the session. The connection
handler attaches the client listeners only after the awaited
openaiService.connect resolves; until then the client socket has no message
listener. -/
inductive ListenerPhase where
  | connecting
  | listening
  deriving DecidableEq, Repr

/-- Delivery of one raw client frame to the session. While the session is
still connecting (listeners not yet attached) the frame is emitted to no
listener and has no effect; once listening, the message listener processes
it. -/
def deliverClientFrame (phase : ListenerPhase) (upstreamOpen : Bool) (msg : ClientMessage) :
    MessageEffects :=
  match phase with
  | .connecting => ⟨[], []⟩
  | .listening => dispatchClientMessage upstreamOpen msg

/-- Helper: executeFunction never lets an exception escape; both the known
and the unknown branch produce a resolved or pending dispatch. -/
theorem executeFunction_not_raised (name : String) (h : HandlerOutcome) :
    (executeFunction name h).isRaised = false := by
  unfold executeFunction
  by_cases hk : name ∈ knownFunctionNames
  · cases h <;> simp [hk, DispatchOutcome.isRaised]
  · simp [hk, DispatchOutcome.isRaised]

/-- Helper: the dispatch stays pending exactly when a known handler never
settles; nothing in executeFunction bounds the await. -/
theorem executeFunction_pending_iff (name : String) (h : HandlerOutcome) :
    executeFunction name h = DispatchOutcome.pending ↔
      name ∈ knownFunctionNames ∧ h = HandlerOutcome.diverges := by
  unfold executeFunction
  by_cases hk : name ∈ knownFunctionNames
  · cases h <;> simp [hk]
  · simp [hk]

/-- C6 counterexample: dispatching the registered tool search_web with a
handler that never settles leaves the dispatch pending forever; no timeout
in executeFunction converts the stalled call into a structured error
result, contrary to the claim. -/
theorem diverging_handler_dispatch_never_returns :
    executeFunction ("search_web") HandlerOutcome.diverges = DispatchOutcome.pending ∧
    (executeFunction ("search_web") HandlerOutcome.diverges).isResult = false := by
  decide

/-- C6 (amended): executeFunction never lets a handler exception escape and
converts rejections into structured error results, but it wraps no timeout
around the handler: the dispatch stays pending exactly when a registered
handler never settles, so a stalled handler blocks the awaiting caller
without bound. -/
theorem executeFunction_unbounded_dispatch_structure :
    ∀ (name : String) (h : HandlerOutcome),
      (executeFunction name h).isRaised = false ∧
      (executeFunction name h = DispatchOutcome.pending ↔
        name ∈ knownFunctionNames ∧ h = HandlerOutcome.diverges) :=
  fun name h => ⟨executeFunction_not_raised name h, executeFunction_pending_iff name h⟩

/-- C7 counterexample: the dispatch for the unregistered name foo resolves
with the structured error whose message is "Unknown function: foo"; the
error string "unknown tool: foo" stated by the claim is not the one the
code produces. -/
theorem unknown_function_error_string_counterexample :
    executeFunction ("foo") (HandlerOutcome.returns { success := true }) =
      DispatchOutcome.result
        { success := false, data := none, error := some ("Unknown function: foo") } ∧
    ("Unknown function: foo") ≠ ("unknown tool: foo") := by
  decide

/-- C7 (amended): a dispatch for an unregistered tool name never throws and
resolves with the structured error result whose message is "Unknown
function: " followed by the name; handleFunctionCall then sends the result
event carrying that error payload and still sends response.create right
after it. -/
theorem unknown_function_dispatch_behaviour (jsonParses : String → Bool)
    (msg : UpstreamToolCallMsg) (handler : HandlerOutcome)
    (hk : msg.name ∉ knownFunctionNames)
    (hp : jsonParses (msg.arguments.getD ("\x7b\x7d")) = true) :
    executeFunction msg.name handler =
      DispatchOutcome.result
        { success := false, data := none,
          error := some ("Unknown function: " ++ msg.name) } ∧
    handleFunctionCall jsonParses true msg handler =
      [UpstreamSend.functionCallOutput msg.call_id
        (ToolOutput.errorPayload (some ("Unknown function: " ++ msg.name))),
       UpstreamSend.responseCreate] := by
  have he : executeFunction msg.name handler =
      DispatchOutcome.result
        { success := false, data := none,
          error := some ("Unknown function: " ++ msg.name) } := by
    unfold executeFunction
    rw [if_neg hk]
  refine ⟨he, ?_⟩
  unfold handleFunctionCall
  rw [hp, he]
  simp [outputOf]

/-- Witness for the amended C7 theorem at the concrete unregistered name
foo with no arguments string. -/
theorem unknown_function_dispatch_behaviour_witness :
    executeFunction ("foo") (HandlerOutcome.returns { success := true }) =
      DispatchOutcome.result
        { success := false, data := none, error := some ("Unknown function: foo") } ∧
    handleFunctionCall jsonParsesModel true
      { call_id := "call7", name := "foo", arguments := none }
      (HandlerOutcome.returns { success := true }) =
      [UpstreamSend.functionCallOutput ("call7")
        (ToolOutput.errorPayload (some ("Unknown function: foo"))),
       UpstreamSend.responseCreate] :=
  unknown_function_dispatch_behaviour jsonParsesModel
    { call_id := "call7", name := "foo", arguments := none }
    (HandlerOutcome.returns { success := true }) (by decide) (by decide)

/-- C2 counterexample: a tool call whose arguments string is a lone opening
brace makes JSON.parse throw inside handleFunctionCall; the surrounding
catch only logs, so the call ends with zero result events sent upstream,
not exactly one. -/
theorem unparseable_arguments_drop_result_event :
    countResultEvents (handleFunctionCall jsonParsesModel true
      { call_id := "call1", name := "search_web", arguments := some ("\x7b") }
      (HandlerOutcome.returns { success := true, data := some ("ok") })) = 0 := by
  decide

/-- C2 (amended): when the arguments string parses, the upstream socket is
open and the handler settles, handleFunctionCall sends exactly one result
event upstream, carrying the tool output or the structured error payload;
when the arguments fail to parse or the socket is closed the call is
dropped with no result event. -/
theorem tool_call_exactly_one_result_event (jsonParses : String → Bool)
    (msg : UpstreamToolCallMsg) (handler : HandlerOutcome)
    (hp : jsonParses (msg.arguments.getD ("\x7b\x7d")) = true)
    (hd : handler ≠ HandlerOutcome.diverges) :
    countResultEvents (handleFunctionCall jsonParses true msg handler) = 1 := by
  unfold handleFunctionCall
  rw [hp]
  cases hex : executeFunction msg.name handler with
  | result r => simp [countResultEvents, isResultEvent]
  | raised m =>
      have hr := executeFunction_not_raised msg.name handler
      rw [hex] at hr
      simp [DispatchOutcome.isRaised] at hr
  | pending =>
      rw [executeFunction_pending_iff] at hex
      exact absurd hex.2 hd

/-- Witness for the amended C2 theorem: a registered tool whose handler
rejects still yields exactly one result event. -/
theorem tool_call_exactly_one_result_event_witness :
    countResultEvents (handleFunctionCall jsonParsesModel true
      { call_id := "c1", name := "get_weather", arguments := none }
      (HandlerOutcome.throws ("boom"))) = 1 :=
  tool_call_exactly_one_result_event jsonParsesModel
    { call_id := "c1", name := "get_weather", arguments := none }
    (HandlerOutcome.throws ("boom")) (by decide) (by decide)

/-- C1 counterexample: the interleaving in which the second termination
trigger enters cleanupSession while the first is suspended at the awaited
finalizeVoiceSession runs the repository finalize twice. The session map
entry, the only guard, is deleted only after the await resolves, so the
map-presence check does not protect overlapping invocations. -/
theorem overlapping_cleanup_double_finalize :
    (runSchedule initialCleanupRun [false, true, false, true]).state.finalizeCalls = 2 ∧
    (runSchedule initialCleanupRun [false, true, false, true]).state.upstreamDisconnectCalls
      = 2 := by
  decide

/-- Helper: a completed cleanup invocation leaves the handler state at the
fixed point in which the session and timeout entries are gone and the
finalize ran once. -/
theorem cleanupTimes_fixed : ∀ n : Nat,
    cleanupTimes n (cleanupOnce initialHandlerState) = cleanupOnce initialHandlerState
  | 0 => rfl
  | n + 1 => by
      have h1 : cleanupOnce (cleanupOnce initialHandlerState)
          = cleanupOnce initialHandlerState := by decide
      show cleanupTimes n (cleanupOnce (cleanupOnce initialHandlerState))
          = cleanupOnce initialHandlerState
      rw [h1]
      exact cleanupTimes_fixed n

/-- C1 (amended): sequential teardown invocations are idempotent: however
many complete cleanupSession invocations run one after the other, the
repository finalize and the upstream disconnect run exactly once, and every
invocation after the first observes a no-op, leaving the state reached by
the first. Overlapping invocations are not covered: an invocation entering
while another is suspended at the finalize await repeats the finalize. -/
theorem sequential_cleanup_exactly_one_finalize :
    ∀ n : Nat,
      (cleanupTimes (n + 1) initialHandlerState).finalizeCalls = 1 ∧
      (cleanupTimes (n + 1) initialHandlerState).upstreamDisconnectCalls = 1 ∧
      cleanupTimes (n + 1) initialHandlerState = cleanupTimes 1 initialHandlerState := by
  intro n
  have h : cleanupTimes (n + 1) initialHandlerState
      = cleanupTimes n (cleanupOnce initialHandlerState) := rfl
  rw [h, cleanupTimes_fixed n]
  refine ⟨by decide, by decide, rfl⟩

/-- C3 counterexample: the ordinary teardown event sequence, socket open
followed by socket close, moves the status directly from connected (the
Active stage) to disconnected (the terminal stage, in which the session is
finalized) with no intermediate stage: the code has no Closing status at
all. Moreover a socket error event arriving after teardown overwrites the
terminal disconnected with error, so the status is not monotone either. -/
theorem status_skips_closing_counterexample :
    statusHistory RTStatus.connecting [RTEvent.wsOpen, RTEvent.wsClose] =
      [RTStatus.connecting, RTStatus.connected, RTStatus.disconnected] ∧
    statusStep RTStatus.disconnected RTEvent.wsError = RTStatus.error := by
  decide

/-- C3 (amended): the status enum of the code is connecting, connected,
disconnected and error; each socket callback writes a fixed status: no
event ever returns the status to connecting, connected is entered only by
the socket open callback, and disconnected is entered exactly by the
socket close callback or an explicit disconnect call — in particular
teardown reaches the terminal disconnected directly from connected, with
no Closing stage in between, and a late error event can overwrite
disconnected. -/
theorem status_step_structure :
    ∀ (s : RTStatus) (e : RTEvent),
      statusStep s e ≠ RTStatus.connecting ∧
      (statusStep s e = RTStatus.connected ↔ e = RTEvent.wsOpen) ∧
      (statusStep s e = RTStatus.disconnected ↔
        (e = RTEvent.wsClose ∨ e = RTEvent.disconnectCall)) := by
  intro s e
  cases s <;> cases e <;> decide

/-- C4 counterexample: with the timer armed at time 0, upstream activity at
nine minutes (540000 ms) does not reset the countdown: the timeout still
fires at the ten minute mark (600000 ms), and likewise for a transport
pong — only client messages reset the timer, contrary to the claim that
every delivered upstream event postpones the close. -/
theorem upstream_activity_does_not_reset_idle_timer :
    idleFireTime [(540000, ActivityEvent.upstreamEvent)] SESSION_TIMEOUT_MS = 600000 ∧
    idleFireTime [(540000, ActivityEvent.transportPong)] SESSION_TIMEOUT_MS = 600000 := by
  decide

/-- C4 (amended): only client messages reset the idle countdown. A client
message at nine minutes postpones the forced cleanup to nineteen minutes
(540000 + 600000 ms), so no close happens at the ten minute mark; and for
any time-ordered activity containing no client message the timeout fires
at the originally armed deadline, upstream events and pongs
notwithstanding. -/
theorem idle_timer_client_only_reset :
    (idleFireTime [(540000, ActivityEvent.clientMessage)] SESSION_TIMEOUT_MS = 1140000) ∧
    (∀ (events : List (Nat × ActivityEvent)) (d : Nat),
      (∀ p ∈ events, p.2 ≠ ActivityEvent.clientMessage) → idleFireTime events d = d) := by
  constructor
  · decide
  · intro events
    induction events with
    | nil => intro d _; rfl
    | cons p rest ih =>
        intro d hall
        obtain ⟨t, e⟩ := p
        unfold idleFireTime
        by_cases hle : d ≤ t
        · rw [if_pos hle]
        · rw [if_neg hle]
          have he : e ≠ ActivityEvent.clientMessage := hall (t, e) (List.mem_cons_self _ _)
          cases e with
          | clientMessage => exact absurd rfl he
          | upstreamEvent => exact ih d (fun q hq => hall q (List.mem_cons_of_mem _ hq))
          | transportPong => exact ih d (fun q hq => hall q (List.mem_cons_of_mem _ hq))

/-- Witness for the amended C4 theorem: an upstream-only activity trace
leaves the armed ten minute deadline in force. -/
theorem idle_timer_client_only_reset_witness :
    idleFireTime [(540000, ActivityEvent.upstreamEvent)] 600000 = 600000 :=
  idle_timer_client_only_reset.2 [(540000, ActivityEvent.upstreamEvent)] 600000 (by decide)

/-- Helper: folding response.done events never touches the audio columns of
the persisted row, because updateVoiceSessionMetrics writes only the
inputTokens and outputTokens columns. -/
theorem foldl_onResponseDone_audio (usages : List (Option UsageReport))
    (st : SessionCounters × VoiceSessionRecord) :
    (usages.foldl onResponseDone st).2.inputAudioTokens = st.2.inputAudioTokens ∧
    (usages.foldl onResponseDone st).2.outputAudioTokens = st.2.outputAudioTokens := by
  induction usages generalizing st with
  | nil => exact ⟨rfl, rfl⟩
  | cons u rest ih =>
      have h := ih (onResponseDone st u)
      simpa [onResponseDone, updateVoiceSessionMetrics] using h

/-- C5 counterexample: two response.done events each reporting 10 input,
20 output, 5 input audio and 7 output audio tokens leave the audio columns
of the persisted row at zero: the audio token details are read for logging
only and never stored, so the row is not the one the claim requires, in
which all four counters accumulate. -/
theorem audio_token_counters_not_accumulated :
    (runResponseDone [some ⟨some 10, some 20, some 5, some 7⟩,
                      some ⟨some 10, some 20, some 5, some 7⟩]).2 =
      ⟨20, 40, 0, 0⟩ ∧
    (runResponseDone [some ⟨some 10, some 20, some 5, some 7⟩,
                      some ⟨some 10, some 20, some 5, some 7⟩]).2 ≠
      ⟨20, 40, 10, 14⟩ := by
  decide

/-- C5 (amended): the in-memory session holds only the two text token
counters; on each response.done carrying a usage object they are
accumulated by addition, never replaced, so they are monotonically
non-decreasing, and the stated scenario holds: two events with usage 10
input and 20 output tokens yield the totals 20 and 40. The audio token
details are logged but not accumulated anywhere: the audio columns of the
persisted row stay zero over any event sequence. -/
theorem usage_counters_text_only_accumulation :
    ((runResponseDone [some ⟨some 10, some 20, none, none⟩,
                       some ⟨some 10, some 20, none, none⟩]).1 =
       ⟨20, 40⟩) ∧
    (∀ (s : SessionCounters) (usage : Option UsageReport),
      s.inputTokens ≤ (applyResponseDone s usage).inputTokens ∧
      s.outputTokens ≤ (applyResponseDone s usage).outputTokens) ∧
    (∀ usages : List (Option UsageReport),
      (runResponseDone usages).2.inputAudioTokens = 0 ∧
      (runResponseDone usages).2.outputAudioTokens = 0) := by
  refine ⟨by decide, ?_, ?_⟩
  · intro s usage
    cases usage with
    | none => exact ⟨le_refl _, le_refl _⟩
    | some u => exact ⟨Nat.le_add_right _ _, Nat.le_add_right _ _⟩
  · intro usages
    have h := foldl_onResponseDone_audio usages (⟨0, 0⟩, initialVoiceSessionRecord)
    exact ⟨h.1, h.2⟩

/-- C8: an upgrade request whose credential verification fails is answered
with the 401 unauthorized response and the socket is destroyed before
wss.handleUpgrade runs: the session map is unchanged, no session record is
created and no upstream connection is attempted — rejection happens before
any resource allocation. -/
theorem rejected_handshake_allocates_nothing
    (jwtVerify : String → Option JwtClaims) (masterKey : String)
    (sessions : List String) (req : UpgradeRequest) (sid : String)
    (h : verifyWebSocketToken jwtVerify masterKey req = none) :
    handleUpgrade jwtVerify masterKey sessions req sid =
      { response := UpgradeResponse.unauthorizedResponse,
        registeredSessions := sessions,
        upstreamConnectAttempts := 0, sessionRecordsCreated := 0 } := by
  unfold handleUpgrade
  rw [h]

/-- Witness for the C8 theorem: a request bearing a token that jwt.verify
rejects is answered 401 and the existing session map is untouched. -/
theorem rejected_handshake_allocates_nothing_witness :
    handleUpgrade (fun _ => none) ("master-key") ["existing-session"]
      { queryToken := some ("bad-token"), authorizationHeader := none,
        queryApiKey := none, headerApiKey := none } ("new-id") =
      { response := UpgradeResponse.unauthorizedResponse,
        registeredSessions := ["existing-session"],
        upstreamConnectAttempts := 0, sessionRecordsCreated := 0 } :=
  rejected_handshake_allocates_nothing (fun _ => none) ("master-key") ["existing-session"]
    { queryToken := some ("bad-token"), authorizationHeader := none,
      queryApiKey := none, headerApiKey := none } ("new-id") rfl

/-- C9 counterexample: while the session is still connecting the client
socket has no message listener, so an input_audio_buffer.append frame is
dropped with no effect: no error event is sent back to the client (the
claim requires exactly one) and even a ping receives no pong. -/
theorem connecting_frames_silently_dropped :
    deliverClientFrame ListenerPhase.connecting true
      (ClientMessage.inputAudioAppend (some ("AAAA"))) = ⟨[], []⟩ ∧
    deliverClientFrame ListenerPhase.connecting true ClientMessage.ping = ⟨[], []⟩ := by
  decide

/-- C9 (amended): while the session is connecting, every client frame,
ping included, is dropped with no reply and nothing forwarded upstream,
because the message listener is attached only after the upstream connect
resolves; once the listener is attached, an audio append arriving with the
upstream socket not open makes sendAudio throw, and the listener answers
the client with exactly one error event and forwards no audio. -/
theorem client_frames_connecting_drop_rejecting_append :
    (∀ (upstreamOpen : Bool) (msg : ClientMessage),
      deliverClientFrame ListenerPhase.connecting upstreamOpen msg = ⟨[], []⟩) ∧
    (∀ a : String,
      deliverClientFrame ListenerPhase.listening false
        (ClientMessage.inputAudioAppend (some a)) =
        ⟨[ClientSend.errorEvent ("Failed to process message")], []⟩) := by
  constructor
  · intro upstreamOpen msg
    rfl
  · intro a
    rfl

/-- C10: a conversation.item.create frame carrying text, processed with the
listener attached and the upstream socket open, makes sendText forward the
conversation item upstream and then unconditionally send response.create
immediately afterwards; the client never needs to send its own
response.create for text input. -/
theorem text_item_always_followed_by_response_create :
    ∀ t : String,
      deliverClientFrame ListenerPhase.listening true
        (ClientMessage.conversationItemCreate (some t)) =
        ⟨[], [UpstreamSend.conversationItemCreateText t, UpstreamSend.responseCreate]⟩ := by
  intro t
  rfl
